import Mathlib

/-!
Verification of the notebook `examples/mp/jupyter/efficient.ipynb`.

The notebook defines a scoped timing utility (`ContextTimer`), a toy
Fibonacci helper (`fib`), eight near-identical builders of a scalable
benchmark model (`build_bench_model1` .. `build_bench_model7`, plus the
intermediate `build_bench_model21`), and a performance-sampling loop.
We embed each of these shallowly: wall-clock readings become explicit
rational-number arguments, printing becomes a returned list of strings,
the models built through the docplex API become explicit records of
variables, constraints and objective, and exceptions become `Except`.
-/

namespace DocplexBench

/-- State of the `ContextTimer` context manager from the notebook:
`msg` and `start` are set by `__init__`/`__enter__`; the attribute `msecs`
does not exist (`none`) until `__exit__` assigns it. -/
structure ContextTimer where
  msg : String
  start : ℚ
  msecs : Option ℤ
deriving DecidableEq

/-- Python `ContextTimer.__init__(self, msg)`: stores the message and sets `start = 0`. -/
def ContextTimer.init (msg : String) : ContextTimer :=
  { msg := msg, start := 0, msecs := none }

/-- Python `ContextTimer.__enter__`: records the current wall-clock time
(`time.time()`, passed explicitly as `now`) in `self.start` and returns
the timer object itself. -/
def ContextTimer.enter (t : ContextTimer) (now : ℚ) : ContextTimer :=
  { t with start := now }

/-- The line printed by `ContextTimer.__exit__`, which formats `self.msg`
and `self.msecs` (an integer, printed by `\x7b1:.0f\x7d` with no decimals). -/
def exitLine (msg : String) (msecs : ℤ) : String :=
  "<-- " ++ msg ++ ",  time: " ++ toString msecs ++ " ms"

/-- Python `ContextTimer.__exit__(self, *args)`: computes
`elapsed = time.time() - self.start` (the current time passed explicitly
as `now`), sets `self.msecs = math.ceil(1000 * elapsed)`, prints one line,
and falls off the end, hence returns `None` (modelled as the
`Option Bool` value `none`).  The `*args` (exception type/value/traceback,
if any) are accepted at any type and ignored. -/
def ContextTimer.exit {β : Type} (t : ContextTimer) (now : ℚ) (args : List β) :
    ContextTimer × List String × Option Bool :=
  let _ := args
  let elapsed : ℚ := now - t.start
  let m : ℤ := ⌈(1000 : ℚ) * elapsed⌉
  ({ t with msecs := some m }, [exitLine t.msg m], none)

/-- Python truthiness of a context manager `__exit__` return value:
`None` is falsy, so an exception is suppressed only when `__exit__`
returns a truthy value. -/
def pyTruthy : Option Bool → Bool
  | none => false
  | some b => b

/-- The exception arguments the Python runtime passes to `__exit__`:
the raised error when the block raised, `none` when it exited normally. -/
def excArgs {E α : Type} : Except E α → List (Option E)
  | .error e => [some e]
  | .ok _ => [none]

/-- Semantics of `with ContextTimer(msg) as tt: body`, where the body may raise:
`__enter__` runs at time `t0`, the body yields `body`, and `__exit__`
runs at time `t1` with the exception arguments on every path; its return
value decides suppression.  Returns the outcome handed to the caller
(`.ok (some a)` for a normal value, `.ok none` for a suppressed
exception, `.error e` for a propagated one), the timer after exit, and
the printed lines. -/
def withTimerE {E α : Type} (msg : String) (t0 t1 : ℚ) (body : Except E α) :
    Except E (Option α) × ContextTimer × List String :=
  let tt := (ContextTimer.init msg).enter t0
  let (tt2, out, ret) := tt.exit t1 (excArgs body)
  let result : Except E (Option α) :=
    match body with
    | .ok a => .ok (some a)
    | .error e => if pyTruthy ret then .ok none else .error e
  (result, tt2, out)

/-- The notebook helper `fib(n) = 1 if n <= 2 else fib(n-1) + fib(n-2)`,
on mathematical integers.  Lean accepts the definition by well-founded
recursion on `(n - 2).toNat`, which establishes termination for every
integer argument, negatives included. -/
def fib (n : ℤ) : ℤ :=
  if n ≤ 2 then 1 else fib (n - 1) + fib (n - 2)
termination_by (n - 2).toNat
decreasing_by
  all_goals omega

/-- One term `coeff * y_var` of a linear expression, as the notebook's
code generates it (before any aggregation by the library). -/
structure LinTerm where
  var : ℕ
  coeff : ℤ
deriving DecidableEq

/-- Sense of a linear constraint; the notebook only ever builds `>=`. -/
inductive CtSense where
  | ge
  | le
  | eq
deriving DecidableEq

/-- A linear constraint `lhs sense rhs`, optionally named. -/
structure LinCt where
  ctName : String
  lhs : List LinTerm
  sense : CtSense
  rhs : ℤ
deriving DecidableEq

/-- A decision variable as the builders create it: index in 0..N-1,
binary (0/1) type, and the generated name. -/
structure VarDesc where
  idx : ℕ
  isBinary : Bool
  varName : String
deriving DecidableEq

/-- The model a builder constructs: construction options (`name`,
`ignore_names`, `checker`, whether the `AdvModel` subclass is used),
the variables, the constraints, and the objective with its sense. -/
structure ModelRepr where
  mdlName : String
  ignoreNames : Bool
  checker : String
  advModel : Bool
  vars : List VarDesc
  cts : List LinCt
  obj : List LinTerm
  minimizeObj : Bool
deriving DecidableEq

/-- The coefficient dictionary `k = \x7b(i,j): (i + (i+j) % 3) ...\x7d`
shared by all builders (models 4-7 inline the same expression). -/
def kcoef (i j : ℕ) : ℤ :=
  (i : ℤ) + ((i + j : ℕ) % 3 : ℕ)

/-- The binary variables `y_0 .. y_{N-1}` created by
`binary_var_dict(rsize, name="y")` / `binary_var_list(rsize, name="y")`. -/
def benchVars (size : ℕ) : List VarDesc :=
  (List.range size).map (fun l => { idx := l, isBinary := true, varName := "y_" ++ toString l })

/-- Model built by `build_bench_model1`: per-constraint `add` of
`m.sum(ys[i] * k[i,j] for j in rsize) >= i` — note the expression sums
over `j` but always mentions the single variable `ys[i]` — and objective
`m.sum(ys[k] * rsize[k] for k in rsize)`, i.e. coefficient `k` (the list
`rsize1 = [i+1 for i in rsize]` is computed but not used here). -/
def build_bench_model1 (size : ℕ) : ModelRepr :=
  { mdlName := "bench1", ignoreNames := false, checker := "default", advModel := false
    vars := benchVars size
    cts := (List.range size).map (fun i =>
      { ctName := "ct_" ++ toString i
        lhs := (List.range size).map (fun j => { var := i, coeff := kcoef i j })
        sense := .ge, rhs := (i : ℤ) })
    obj := (List.range size).map (fun k => { var := k, coeff := (k : ℤ) })
    minimizeObj := true }

/-- The constraints shared by `build_bench_model2` .. `build_bench_model7`:
for each `i`, `scal_prod` of all variables `y_0..y_{N-1}` against
coefficients `[k[i,j] for j in rsize]`, compared `>= i` and named `ct_i`. -/
def benchCts2 (size : ℕ) : List LinCt :=
  (List.range size).map (fun i =>
    { ctName := "ct_" ++ toString i
      lhs := (List.range size).map (fun l => { var := l, coeff := kcoef i l })
      sense := .ge, rhs := (i : ℤ) })

/-- The objective shared by `build_bench_model2` .. `build_bench_model7`:
`scal_prod` of the variables against `rsize1 = [i+1 for i in rsize]`
(or the equivalent comprehension `(i+1 for i in rsize)`). -/
def benchObj2 (size : ℕ) : List LinTerm :=
  (List.range size).map (fun k => { var := k, coeff := (k : ℤ) + 1 })

/-- Model built by `build_bench_model2`: `scal_prod([ys[i1] for i1 in rsize], [k[i,j] for j in rsize])`
per constraint, objective `scal_prod([ys[k] for k in rsize], rsize1)`. -/
def build_bench_model2 (size : ℕ) : ModelRepr :=
  { mdlName := "bench2", ignoreNames := false, checker := "default", advModel := false
    vars := benchVars size, cts := benchCts2 size, obj := benchObj2 size, minimizeObj := true }

/-- Model built by `build_bench_model21`: same as model 2 but with `binary_var_list`. -/
def build_bench_model21 (size : ℕ) : ModelRepr :=
  { mdlName := "bench2.1", ignoreNames := false, checker := "default", advModel := false
    vars := benchVars size, cts := benchCts2 size, obj := benchObj2 size, minimizeObj := true }

/-- Model built by `build_bench_model3`: constraints added in one `add_constraints` batch. -/
def build_bench_model3 (size : ℕ) : ModelRepr :=
  { mdlName := "bench3", ignoreNames := false, checker := "default", advModel := false
    vars := benchVars size, cts := benchCts2 size, obj := benchObj2 size, minimizeObj := true }

/-- Model built by `build_bench_model4`: comprehensions instead of the `k` dict and
the `rsize1` list; same coefficients. -/
def build_bench_model4 (size : ℕ) : ModelRepr :=
  { mdlName := "bench4", ignoreNames := false, checker := "default", advModel := false
    vars := benchVars size, cts := benchCts2 size, obj := benchObj2 size, minimizeObj := true }

/-- Model built by `build_bench_model5`: adds `ignore_names=True` to the constructor. -/
def build_bench_model5 (size : ℕ) : ModelRepr :=
  { mdlName := "bench5", ignoreNames := true, checker := "default", advModel := false
    vars := benchVars size, cts := benchCts2 size, obj := benchObj2 size, minimizeObj := true }

/-- Model built by `build_bench_model6`: adds `checker="off"` as well. -/
def build_bench_model6 (size : ℕ) : ModelRepr :=
  { mdlName := "bench6", ignoreNames := true, checker := "off", advModel := false
    vars := benchVars size, cts := benchCts2 size, obj := benchObj2 size, minimizeObj := true }

/-- Model built by `build_bench_model7`: the `AdvModel` subclass with
`scal_prod_vars_all_different`; same variables, coefficients and bounds. -/
def build_bench_model7 (size : ℕ) : ModelRepr :=
  { mdlName := "bench7", ignoreNames := true, checker := "off", advModel := true
    vars := benchVars size, cts := benchCts2 size, obj := benchObj2 size, minimizeObj := true }

/-- Aggregated coefficient of variable `v` in a generated expression:
the sum of the coefficients of all terms mentioning `v`. -/
def coeffOf (lhs : List LinTerm) (v : ℕ) : ℤ :=
  (lhs.map (fun t => if t.var = v then t.coeff else 0)).sum

/-- Aggregated coefficient vector (one entry per variable `0..n-1`). -/
def coeffVec (n : ℕ) (lhs : List LinTerm) : List ℤ :=
  (List.range n).map (coeffOf lhs)

/-- The mathematical content of a model: number of variables, whether
all are binary, constraints as (aggregated coefficient vector, sense,
right-hand side), aggregated objective vector and its sense — names and
construction options erased. -/
structure MathModel where
  nVars : ℕ
  allBinary : Bool
  cts : List (List ℤ × CtSense × ℤ)
  obj : List ℤ
  minimizeObj : Bool
deriving DecidableEq

/-- Projection of a built model onto its mathematical content. -/
def mathModel (m : ModelRepr) : MathModel :=
  { nVars := m.vars.length
    allBinary := m.vars.all (fun v => v.isBinary)
    cts := m.cts.map (fun c => (coeffVec m.vars.length c.lhs, c.sense, c.rhs))
    obj := coeffVec m.vars.length m.obj
    minimizeObj := m.minimizeObj }

/-- The docplex library calls a builder issues, in order.  Each may raise;
the notebook code wraps none of them in a handler. -/
inductive Op where
  | newModel (mdlName : String) (ignoreNames : Bool) (checker : String) (adv : Bool)
  | binaryVarDict (n : ℕ)
  | binaryVarList (n : ℕ)
  | sumExpr (i : ℕ)
  | scalProd (i : ℕ)
  | addCt (i : ℕ)
  | addConstraints (n : ℕ)
  | sumObjExpr
  | scalProdObj
  | minimizeOp
deriving DecidableEq

/-- Run a sequence of library calls with no exception handling: the
first `.error` aborts the run and is returned as is. -/
def runOps {E : Type} (lib : Op → Except E Unit) : List Op → Except E Unit
  | [] => .ok ()
  | o :: rest =>
    match lib o with
    | .error e => .error e
    | .ok _ => runOps lib rest

/-- Call sequence of `build_bench_model1`: constructor, `binary_var_dict`,
then per constraint an `m.sum` expression and an `m.add`, then the
objective sum and `minimize`. -/
def build1Ops (n : ℕ) : List Op :=
  .newModel "bench1" false "default" false :: .binaryVarDict n ::
    ((List.range n).flatMap (fun i => [.sumExpr i, .addCt i]) ++ [.sumObjExpr, .minimizeOp])

/-- Call sequence of `build_bench_model2`: per constraint a `scal_prod`
and an `m.add`, then the objective `scal_prod` and `minimize`. -/
def build2Ops (n : ℕ) : List Op :=
  .newModel "bench2" false "default" false :: .binaryVarDict n ::
    ((List.range n).flatMap (fun i => [.scalProd i, .addCt i]) ++ [.scalProdObj, .minimizeOp])

/-- Call sequence of `build_bench_model21` (variable list variant). -/
def build21Ops (n : ℕ) : List Op :=
  .newModel "bench2.1" false "default" false :: .binaryVarList n ::
    ((List.range n).flatMap (fun i => [.scalProd i, .addCt i]) ++ [.scalProdObj, .minimizeOp])

/-- Call sequence of `build_bench_model3`..`7`: constructor (with the
version's options), `binary_var_list`, one `add_constraints` batch, the
objective `scal_prod` and `minimize`. -/
def batchOps (mdlName : String) (ignoreNames : Bool) (checker : String) (adv : Bool)
    (n : ℕ) : List Op :=
  [.newModel mdlName ignoreNames checker adv, .binaryVarList n,
   .addConstraints n, .scalProdObj, .minimizeOp]

/-- The call sequences of all eight builders at a given size. -/
def benchOpLists (n : ℕ) : List (List Op) :=
  [build1Ops n, build2Ops n, build21Ops n,
   batchOps "bench3" false "default" false n,
   batchOps "bench4" false "default" false n,
   batchOps "bench5" true "default" false n,
   batchOps "bench6" true "off" false n,
   batchOps "bench7" true "off" true n]

/-- State threaded through the performance-sampling loop: identities of
the models currently alive, the id for the next model created, and the
accumulated `res` dictionary mapping `(builder index, size)` to the
timer's `msecs`. -/
structure LoopState where
  live : List ℕ
  nextId : ℕ
  res : List ((ℕ × ℕ) × Option ℤ)
deriving DecidableEq

/-- One iteration of the sampling loop:
`with ContextTimer(msg) as tt: m = bf(s); m.end()` followed by
`res[b, s] = tt.msecs`.  The model is created (becomes live) and disposed
by `m.end()` (removed from the live set) inside the timed block; the
timer's entry/exit times are `tS`/`tE`. -/
def loopIter (tS tE : ℚ) (bf : ℕ → ModelRepr) (fname : String) (b s r nbRuns : ℕ)
    (st : LoopState) : LoopState × List String :=
  let msg := "[" ++ toString r ++ "/" ++ toString nbRuns ++ "] use " ++ fname
      ++ " with size=" ++ toString s
  let tt := (ContextTimer.init msg).enter tS
  let mid := st.nextId
  let live1 := st.live ++ [mid]
  let _model := bf s
  let live2 := live1.erase mid
  let (tt2, out, _ret) := tt.exit tE ([none] : List (Option Unit))
  ({ live := live2, nextId := mid + 1,
     res := st.res ++ [((b, s), tt2.msecs)] }, out)

/-- The `(size, builder index, builder)` combinations the loop runs, in
order: sizes outermost, builders (with their labels) innermost. -/
def loopRuns (szs : List ℕ) (blds : List ((ℕ → ModelRepr) × String)) :
    List (ℕ × ℕ × ((ℕ → ModelRepr) × String)) :=
  szs.flatMap (fun s => blds.enum.map (fun p => (s, p.1, p.2)))

/-- The sampling loop itself, run over a list of combinations from a
starting state; the run counter `r` (printed in the message) is one more
than the number of models created so far. -/
def runLoopFrom (clock : ℕ → ℚ × ℚ) (nbRuns : ℕ) :
    List (ℕ × ℕ × ((ℕ → ModelRepr) × String)) → LoopState → LoopState
  | [], st => st
  | (s, b, bf) :: rest, st =>
      runLoopFrom clock nbRuns rest
        (loopIter (clock st.nextId).1 (clock st.nextId).2 bf.1 bf.2 b s
          (st.nextId + 1) nbRuns st).1

/-- The sizes sampled by the notebook. -/
def sizes : List ℕ := [100, 300, 600, 1000, 3000, 5000]

/-- The `(build function, label)` list the notebook samples. -/
def builders : List ((ℕ → ModelRepr) × String) :=
  [(build_bench_model1, "initial"), (build_bench_model2, "scal_prod"),
   (build_bench_model4, "batch_cts"), (build_bench_model5, "ignore_names"),
   (build_bench_model6, "checker_off"), (build_bench_model7, "advmodel")]

/-- The count `nb_runs = len(sizes) * len(builders)`. -/
def nbRuns : ℕ := sizes.length * builders.length

/-- The loop's initial state: no live models, empty `res`. -/
def initLoopState : LoopState := { live := [], nextId := 0, res := [] }

/-- Build `m = bf(n)` timed by a `ContextTimer` block: the body never raises. -/
def timedBuild (bf : ℕ → ModelRepr) (msg : String) (n : ℕ) (t0 t1 : ℚ) :
    Except Unit (Option ModelRepr) × ContextTimer × List String :=
  withTimerE msg t0 t1 (Except.ok (bf n))

/-- A library in which no call raises. -/
def okLib : Op → Except String Unit := fun _ => .ok ()

/-- A library in which the `minimize` call raises `"boom"`. -/
def failLib : Op → Except String Unit :=
  fun o => if o = .minimizeOp then .error "boom" else .ok ()

/-- A constraint of `build_bench_model1` by index (out-of-range indices
give a dummy constraint). -/
def ctAt (m : ModelRepr) (i : ℕ) : LinCt :=
  m.cts.getD i { ctName := "", lhs := [], sense := .ge, rhs := 0 }

/-! ### Helper lemmas -/

lemma fib_of_le_two {n : ℤ} (h : n ≤ 2) : fib n = 1 := by
  rw [fib]
  simp [h]

lemma fib_of_gt_two {n : ℤ} (h : 2 < n) : fib n = fib (n - 1) + fib (n - 2) := by
  rw [fib]
  simp [not_le.mpr h]

lemma fib_eq_natFib (m : ℕ) : fib ((m : ℤ) + 1) = Nat.fib (m + 1) := by
  induction m using Nat.strong_induction_on with
  | _ m ih =>
    match m with
    | 0 => rw [fib_of_le_two (by norm_num)]; norm_num
    | 1 => rw [fib_of_le_two (by norm_num)]; norm_num
    | (k + 2) =>
      have h2 : (2 : ℤ) < ((k + 2 : ℕ) : ℤ) + 1 := by push_cast; omega
      rw [fib_of_gt_two h2]
      have e1 : ((k + 2 : ℕ) : ℤ) + 1 - 1 = ((k + 1 : ℕ) : ℤ) + 1 := by push_cast; ring
      have e2 : ((k + 2 : ℕ) : ℤ) + 1 - 2 = ((k : ℕ) : ℤ) + 1 := by push_cast; ring
      rw [e1, e2, ih (k + 1) (by omega), ih k (by omega)]
      have hfib : Nat.fib (k + 2 + 1) = Nat.fib (k + 1) + Nat.fib (k + 1 + 1) :=
        Nat.fib_add_two
      rw [hfib]
      push_cast
      ring

/-! ### C8 -/

/-- C8: `fib` is total on the integers (its Lean definition is accepted
by well-founded recursion, so it terminates on every integer, negatives
included); it returns 1 whenever `n <= 2` and `fib(n-1) + fib(n-2)`
otherwise, and for `n >= 1` it equals the Fibonacci number `F(n)` with
`F(1) = F(2) = 1` (Mathlib's `Nat.fib`). -/
theorem fib_total_and_correct :
    (∀ n : ℤ, n ≤ 2 → fib n = 1) ∧
    (∀ n : ℤ, 2 < n → fib n = fib (n - 1) + fib (n - 2)) ∧
    (∀ n : ℤ, 1 ≤ n → fib n = Nat.fib n.toNat) := by
  refine ⟨fun n h => fib_of_le_two h, fun n h => fib_of_gt_two h, fun n h => ?_⟩
  obtain ⟨m, hm⟩ : ∃ m : ℕ, n = (m : ℤ) + 1 :=
    ⟨(n - 1).toNat, by omega⟩
  subst hm
  have ht : ((m : ℤ) + 1).toNat = m + 1 := by omega
  rw [fib_eq_natFib, ht]

/-- Witness for C8 at concrete inputs. -/
theorem fib_total_and_correct_witness :
    ((-5 : ℤ) ≤ 2 ∧ fib (-5) = 1) ∧
    ((2 : ℤ) < 7 ∧ fib 7 = fib 6 + fib 5) ∧
    ((1 : ℤ) ≤ 7 ∧ fib 7 = Nat.fib (7 : ℤ).toNat) :=
  ⟨⟨by norm_num, fib_total_and_correct.1 (-5) (by norm_num)⟩,
   ⟨by norm_num, by simpa using fib_total_and_correct.2.1 7 (by norm_num)⟩,
   ⟨by norm_num, fib_total_and_correct.2.2 7 (by norm_num)⟩⟩

/-! ### C2 -/

/-- C2: `__enter__` records the current time in `self.start` and returns
the timer itself (the same record with only `start` changed); `__exit__`
sets `self.msecs` to the ceiling of 1000 times the elapsed time and
prints exactly one message, which contains `self.msg` and `self.msecs`. -/
theorem context_timer_enter_exit (msg : String) (t0 t1 : ℚ) {β : Type} (args : List β) :
    (ContextTimer.init msg).enter t0 = { msg := msg, start := t0, msecs := none } ∧
    (((ContextTimer.init msg).enter t0).exit t1 args).1 =
      { msg := msg, start := t0, msecs := some ⌈(1000 : ℚ) * (t1 - t0)⌉ } ∧
    (((ContextTimer.init msg).enter t0).exit t1 args).2.1 =
      [exitLine msg ⌈(1000 : ℚ) * (t1 - t0)⌉] ∧
    (∃ a b, exitLine msg ⌈(1000 : ℚ) * (t1 - t0)⌉ = a ++ msg ++ b) ∧
    (∃ a b, exitLine msg ⌈(1000 : ℚ) * (t1 - t0)⌉ =
      a ++ toString ⌈(1000 : ℚ) * (t1 - t0)⌉ ++ b) := by
  refine ⟨rfl, rfl, rfl,
    ⟨"<-- ", ",  time: " ++ toString ⌈(1000 : ℚ) * (t1 - t0)⌉ ++ " ms", ?_⟩,
    ⟨"<-- " ++ msg ++ ",  time: ", " ms", rfl⟩⟩
  simp [exitLine, String.append_assoc]

/-! ### C3 -/

/-- C3: `__exit__` accepts any exception arguments and returns `None`
(falsy, so it never suppresses an exception); in a `with ContextTimer`
block the exit action runs on every path: `msecs` is set and exactly one
message is printed whether the body raised or not, an error in the body
propagates unchanged to the caller, and a normal value passes through. -/
theorem context_timer_exit_every_path {E α β : Type} (msg : String) (t0 t1 : ℚ)
    (body : Except E α) (t : ContextTimer) (now : ℚ) (args : List β) :
    (t.exit now args).2.2 = none ∧
    pyTruthy (t.exit now args).2.2 = false ∧
    (withTimerE msg t0 t1 body).2.1.msecs = some ⌈(1000 : ℚ) * (t1 - t0)⌉ ∧
    (withTimerE msg t0 t1 body).2.2 = [exitLine msg ⌈(1000 : ℚ) * (t1 - t0)⌉] ∧
    (∀ e : E, body = .error e → (withTimerE msg t0 t1 body).1 = .error e) ∧
    (∀ a : α, body = .ok a → (withTimerE msg t0 t1 body).1 = .ok (some a)) := by
  refine ⟨rfl, rfl, ?_, ?_, ?_, ?_⟩
  · cases body <;> rfl
  · cases body <;> rfl
  · intro e he; subst he; rfl
  · intro a ha; subst ha; rfl

/-- Witness for C3: a raising body's error propagates unchanged. -/
theorem context_timer_exit_every_path_witness :
    ((Except.error "boom" : Except String ℕ) = Except.error "boom") ∧
    (withTimerE "m" 0 1 (Except.error "boom" : Except String ℕ)).1 =
      Except.error "boom" :=
  ⟨rfl, (context_timer_exit_every_path "m" 0 1 (Except.error "boom" : Except String ℕ)
      { msg := "m", start := 0, msecs := none } 0 ([] : List ℕ)).2.2.2.2.1 "boom" rfl⟩

/-! ### C6 -/

/-- C6: each builder is deterministic in its size argument and shares no
mutable state with the timer: the model produced by a timed build is
exactly the pure function of the size, independent of the wall-clock
readings `t0`, `t1` and of the message (clock readings affect only the
reported timing, never the model content). -/
theorem builders_deterministic (n : ℕ) (msg : String) (t0 t1 : ℚ) :
    (timedBuild build_bench_model1 msg n t0 t1).1 = .ok (some (build_bench_model1 n)) ∧
    (timedBuild build_bench_model2 msg n t0 t1).1 = .ok (some (build_bench_model2 n)) ∧
    (timedBuild build_bench_model21 msg n t0 t1).1 = .ok (some (build_bench_model21 n)) ∧
    (timedBuild build_bench_model3 msg n t0 t1).1 = .ok (some (build_bench_model3 n)) ∧
    (timedBuild build_bench_model4 msg n t0 t1).1 = .ok (some (build_bench_model4 n)) ∧
    (timedBuild build_bench_model5 msg n t0 t1).1 = .ok (some (build_bench_model5 n)) ∧
    (timedBuild build_bench_model6 msg n t0 t1).1 = .ok (some (build_bench_model6 n)) ∧
    (timedBuild build_bench_model7 msg n t0 t1).1 = .ok (some (build_bench_model7 n)) :=
  ⟨rfl, rfl, rfl, rfl, rfl, rfl, rfl, rfl⟩

lemma runOps_ok {E : Type} (lib : Op → Except E Unit) :
    ∀ ops : List Op, (∀ o ∈ ops, lib o = .ok ()) → runOps lib ops = .ok () := by
  intro ops h
  induction ops with
  | nil => rfl
  | cons o rest ih =>
      have ho := h o (List.mem_cons_self o rest)
      rw [runOps, ho]
      exact ih (fun x hx => h x (List.mem_cons_of_mem o hx))

lemma runOps_error {E : Type} (lib : Op → Except E Unit) (e : E) :
    ∀ ops : List Op, runOps lib ops = .error e → ∃ o ∈ ops, lib o = .error e := by
  intro ops
  induction ops with
  | nil => intro h; exact absurd h (by simp [runOps])
  | cons o rest ih =>
      intro h
      cases hlo : lib o with
      | error e2 =>
          rw [runOps, hlo] at h
          exact ⟨o, List.mem_cons_self o rest, by rw [hlo]; exact h⟩
      | ok u =>
          cases u
          rw [runOps, hlo] at h
          obtain ⟨o2, ho2, ho3⟩ := ih h
          exact ⟨o2, List.mem_cons_of_mem o ho2, ho3⟩

/-! ### C5 -/

/-- C5: the builders and the timer do no validation, retry or recovery.
Run over its sequence of library calls with `Except` semantics, each
builder's call sequence returns `.ok` when no library call raises (the
notebook's own code raises nothing), and any library error aborts the
run and is returned unchanged (it can only originate in one of the
issued calls); an error in a `with ContextTimer` body likewise
propagates unchanged through the timer. -/
theorem no_validation_no_recovery {E : Type} (lib : Op → Except E Unit) (n : ℕ)
    (ops : List Op) (_hops : ops ∈ benchOpLists n) :
    ((∀ o ∈ ops, lib o = .ok ()) → runOps lib ops = .ok ()) ∧
    (∀ e : E, runOps lib ops = .error e → ∃ o ∈ ops, lib o = .error e) ∧
    (∀ (α : Type) (msg : String) (t0 t1 : ℚ) (body : Except E α) (e : E),
      body = .error e → (withTimerE msg t0 t1 body).1 = .error e) := by
  refine ⟨runOps_ok lib ops, fun e => runOps_error lib e ops, ?_⟩
  intro α msg t0 t1 body e he
  subst he
  rfl

/-- Witness for C5: with a never-raising library the build succeeds;
with a library whose `minimize` raises, the raised error is returned. -/
theorem no_validation_no_recovery_witness :
    runOps okLib (build1Ops 2) = .ok () ∧
    (∃ o ∈ build1Ops 2, failLib o = .error "boom") :=
  ⟨(no_validation_no_recovery okLib 2 (build1Ops 2) (by simp [benchOpLists])).1
      (fun o _ => rfl),
   (no_validation_no_recovery failLib 2 (build1Ops 2) (by simp [benchOpLists])).2.1
      "boom" (by rfl)⟩

lemma runLoopFrom_spec (clock : ℕ → ℚ × ℚ) (nb : ℕ) :
    ∀ (its : List (ℕ × ℕ × ((ℕ → ModelRepr) × String)))
      (r0 : ℕ) (res0 : List ((ℕ × ℕ) × Option ℤ)),
      runLoopFrom clock nb its { live := [], nextId := r0, res := res0 } =
      { live := [], nextId := r0 + its.length,
        res := res0 ++ (its.enumFrom r0).map
          (fun p => ((p.2.2.1, p.2.1),
            some ⌈(1000 : ℚ) * ((clock p.1).2 - (clock p.1).1)⌉)) } := by
  intro its
  induction its with
  | nil => intro r0 res0; simp [runLoopFrom, List.enumFrom]
  | cons it rest ih =>
      intro r0 res0
      obtain ⟨s, b, bf⟩ := it
      rw [runLoopFrom]
      have hstep :
          (loopIter (clock r0).1 (clock r0).2 bf.1 bf.2 b s (r0 + 1) nb
            { live := [], nextId := r0, res := res0 }).1 =
          { live := [], nextId := r0 + 1,
            res := res0 ++ [((b, s),
              some ⌈(1000 : ℚ) * ((clock r0).2 - (clock r0).1)⌉)] } := by
        simp [loopIter, ContextTimer.exit, ContextTimer.enter, ContextTimer.init]
      rw [hstep, ih (r0 + 1)]
      simp [List.enumFrom, List.append_assoc]
      omega

/-! ### C7 -/

/-- C7: in the performance-sampling loop, each iteration builds a fresh
model and disposes it via `m.end()` inside the same timed block, so the
set of live models is empty at the start of every iteration (every
prefix of the run leaves no model alive), and the only data outliving a
run is the timer's `msecs`, stored in `res` under the
`(builder index, size)` key — the final `res` is exactly one entry per
`(size, builder)` combination, in order, holding the elapsed time from
that run's clock readings. -/
theorem sampling_loop_invariant (clock : ℕ → ℚ × ℚ) :
    (∀ k : ℕ,
      (runLoopFrom clock nbRuns ((loopRuns sizes builders).take k)
        initLoopState).live = []) ∧
    (runLoopFrom clock nbRuns (loopRuns sizes builders) initLoopState).res =
      (loopRuns sizes builders).enum.map
        (fun p => ((p.2.2.1, p.2.1),
          some ⌈(1000 : ℚ) * ((clock p.1).2 - (clock p.1).1)⌉)) := by
  constructor
  · intro k
    rw [initLoopState, runLoopFrom_spec]
  · rw [initLoopState, runLoopFrom_spec]
    simp [List.enum]

lemma sum_ite_range_of_le (g : ℕ → ℤ) (n v : ℕ) (h : n ≤ v) :
    ((List.range n).map (fun j => if j = v then g j else 0)).sum = 0 := by
  induction n with
  | zero => simp
  | succ m ih =>
      rw [List.range_succ, List.map_append, List.sum_append]
      have hm : m ≠ v := by omega
      simp [hm, ih (by omega)]

lemma sum_ite_range_of_lt (g : ℕ → ℤ) (n v : ℕ) (h : v < n) :
    ((List.range n).map (fun j => if j = v then g j else 0)).sum = g v := by
  induction n with
  | zero => omega
  | succ m ih =>
      rw [List.range_succ, List.map_append, List.sum_append]
      rcases Nat.lt_or_ge v m with hv | hv
      · have hm : m ≠ v := by omega
        simp [hm, ih hv]
      · have hve : v = m := by omega
        subst hve
        simp [sum_ite_range_of_le g v v le_rfl]

lemma coeffOf_map_range (n v : ℕ) (f : ℕ → LinTerm) :
    coeffOf ((List.range n).map f) v =
      ((List.range n).map (fun j => if (f j).var = v then (f j).coeff else 0)).sum := by
  rw [coeffOf, List.map_map]
  rfl

lemma getD_map_range {α : Type} (n i : ℕ) (h : i < n) (f : ℕ → α) (d : α) :
    ((List.range n).map f).getD i d = f i := by
  rw [List.getD_eq_getElem?_getD]
  simp [List.getElem?_map, List.getElem?_range, h]

lemma benchVars_length (n : ℕ) : (benchVars n).length = n := by
  simp [benchVars]

lemma benchVars_idx (n : ℕ) : (benchVars n).map (fun v => v.idx) = List.range n := by
  simp [benchVars, List.map_map, Function.comp_def]

lemma benchVars_binary (n : ℕ) : ∀ v ∈ benchVars n, v.isBinary = true := by
  intro v hv
  simp [benchVars] at hv
  obtain ⟨l, _, rfl⟩ := hv
  rfl

lemma benchCts2_length (n : ℕ) : (benchCts2 n).length = n := by
  simp [benchCts2]

lemma build1_cts_length (n : ℕ) : (build_bench_model1 n).cts.length = n := by
  simp [build_bench_model1]

lemma coeffVec_benchObj2 (n : ℕ) :
    coeffVec n (benchObj2 n) = (List.range n).map (fun k : ℕ => (k : ℤ) + 1) := by
  rw [coeffVec]
  refine List.map_congr_left (fun v hv => ?_)
  have hvn : v < n := List.mem_range.mp hv
  rw [benchObj2, coeffOf_map_range]
  exact sum_ite_range_of_lt (fun k => (k : ℤ) + 1) n v hvn

lemma coeffVec_build1_obj (n : ℕ) :
    coeffVec n (build_bench_model1 n).obj = (List.range n).map (fun k : ℕ => (k : ℤ)) := by
  rw [coeffVec]
  refine List.map_congr_left (fun v hv => ?_)
  have hvn : v < n := List.mem_range.mp hv
  rw [show (build_bench_model1 n).obj =
        (List.range n).map (fun k => ({ var := k, coeff := (k : ℤ) } : LinTerm)) from rfl,
    coeffOf_map_range]
  exact sum_ite_range_of_lt (fun k => (k : ℤ)) n v hvn

/-! ### C1 -/

/-- C1 as stated is false: at size 1 the mathematical model built by
`build_bench_model1` differs from the one built by `build_bench_model2`
(the objective coefficient of `y_0` is 0 in the former and 1 in the
latter). -/
theorem not_all_builders_same_model :
    mathModel (build_bench_model1 1) ≠ mathModel (build_bench_model2 1) := by
  decide

/-- C1 amended: the builders `build_bench_model2` through
`build_bench_model7` (including the intermediate `build_bench_model21`)
construct the same mathematical model for every size — same binary
variables, same constraints, same objective — differing only in naming
and argument-checking options; `build_bench_model1` is the exception. -/
theorem builders_2_to_7_same_model (n : ℕ) :
    mathModel (build_bench_model21 n) = mathModel (build_bench_model2 n) ∧
    mathModel (build_bench_model3 n) = mathModel (build_bench_model2 n) ∧
    mathModel (build_bench_model4 n) = mathModel (build_bench_model2 n) ∧
    mathModel (build_bench_model5 n) = mathModel (build_bench_model2 n) ∧
    mathModel (build_bench_model6 n) = mathModel (build_bench_model2 n) ∧
    mathModel (build_bench_model7 n) = mathModel (build_bench_model2 n) :=
  ⟨rfl, rfl, rfl, rfl, rfl, rfl⟩

/-! ### C4 -/

/-- C4: for every size `N >= 1`, every benchmark builder creates exactly
`N` binary decision variables indexed `0..N-1`, exactly `N` linear
constraints, and a linear objective to be minimized. -/
theorem builders_shape (n : ℕ) (h : 1 ≤ n) :
    ∀ m ∈ [build_bench_model1 n, build_bench_model2 n, build_bench_model21 n,
           build_bench_model3 n, build_bench_model4 n, build_bench_model5 n,
           build_bench_model6 n, build_bench_model7 n],
      m.vars.length = n ∧ m.vars.map (fun v => v.idx) = List.range n ∧
      (∀ v ∈ m.vars, v.isBinary = true) ∧ m.cts.length = n ∧
      m.minimizeObj = true := by
  have _hn := h
  intro m hm
  fin_cases hm
  · exact ⟨benchVars_length n, benchVars_idx n, benchVars_binary n,
      build1_cts_length n, rfl⟩
  all_goals exact ⟨benchVars_length n, benchVars_idx n, benchVars_binary n,
    benchCts2_length n, rfl⟩

/-- Witness for C4 at size 2 with `build_bench_model1`. -/
theorem builders_shape_witness :
    (1 ≤ 2) ∧
    ((build_bench_model1 2).vars.length = 2 ∧
     (build_bench_model1 2).vars.map (fun v => v.idx) = List.range 2 ∧
     (∀ v ∈ (build_bench_model1 2).vars, v.isBinary = true) ∧
     (build_bench_model1 2).cts.length = 2 ∧
     (build_bench_model1 2).minimizeObj = true) :=
  ⟨by norm_num,
   builders_shape 2 (by norm_num) (build_bench_model1 2)
     (List.mem_cons_self _ _)⟩

/-! ### C9 -/

/-- C9: in `build_bench_model1` the `i`-th constraint mentions only the
variable `y_i` — every generated term has variable index `i`, and the
aggregated coefficient of `y_v` is the sum over `j` of `i + (i+j) % 3`
when `v = i` and `0` otherwise — whereas in `build_bench_model2` through
`build_bench_model7` the `i`-th constraint is a scalar product mentioning
all `N` variables `y_0 .. y_{N-1}`, one term per variable. -/
theorem model1_constraint_mentions_one_variable (n i : ℕ) (h : i < n) :
    (∀ t ∈ (ctAt (build_bench_model1 n) i).lhs, t.var = i) ∧
    (∀ v : ℕ, coeffOf (ctAt (build_bench_model1 n) i).lhs v =
      if v = i then ((List.range n).map (fun j => kcoef i j)).sum else 0) ∧
    ((ctAt (build_bench_model2 n) i).lhs.map (fun t => t.var) = List.range n) ∧
    ((ctAt (build_bench_model21 n) i).lhs.map (fun t => t.var) = List.range n) ∧
    ((ctAt (build_bench_model3 n) i).lhs.map (fun t => t.var) = List.range n) ∧
    ((ctAt (build_bench_model4 n) i).lhs.map (fun t => t.var) = List.range n) ∧
    ((ctAt (build_bench_model5 n) i).lhs.map (fun t => t.var) = List.range n) ∧
    ((ctAt (build_bench_model6 n) i).lhs.map (fun t => t.var) = List.range n) ∧
    ((ctAt (build_bench_model7 n) i).lhs.map (fun t => t.var) = List.range n) := by
  have hct1 : ctAt (build_bench_model1 n) i =
      { ctName := "ct_" ++ toString i
        lhs := (List.range n).map (fun j => { var := i, coeff := kcoef i j })
        sense := .ge, rhs := (i : ℤ) } :=
    getD_map_range n i h _ _
  have hct2 : ctAt (build_bench_model2 n) i =
      { ctName := "ct_" ++ toString i
        lhs := (List.range n).map (fun l => { var := l, coeff := kcoef i l })
        sense := .ge, rhs := (i : ℤ) } :=
    getD_map_range n i h _ _
  have hvars2 : (ctAt (build_bench_model2 n) i).lhs.map (fun t => t.var) =
      List.range n := by
    rw [hct2]
    simp [List.map_map, Function.comp_def]
  refine ⟨?_, ?_, hvars2, hvars2, hvars2, hvars2, hvars2, hvars2, hvars2⟩
  · rw [hct1]
    intro t ht
    simp at ht
    obtain ⟨j, _, rfl⟩ := ht
    rfl
  · intro v
    rw [hct1, coeffOf_map_range]
    by_cases hvi : v = i
    · subst hvi
      simp
    · have hiv : i ≠ v := fun hh => hvi hh.symm
      simp [hiv, hvi]

/-- Witness for C9 at size 3, constraint 1. -/
theorem model1_constraint_mentions_one_variable_witness :
    (1 < 3) ∧
    (∀ t ∈ (ctAt (build_bench_model1 3) 1).lhs, t.var = 1) ∧
    ((ctAt (build_bench_model2 3) 1).lhs.map (fun t => t.var) = List.range 3) :=
  ⟨by norm_num,
   (model1_constraint_mentions_one_variable 3 1 (by norm_num)).1,
   (model1_constraint_mentions_one_variable 3 1 (by norm_num)).2.2.1⟩

/-! ### C10 -/

/-- C10: in `build_bench_model1` the objective coefficient of `y_k` is
`k` (the code uses `rsize[k]`, not the computed-but-unused
`rsize1 = [i+1 for i in rsize]`), so `y_0` has coefficient 0; in
`build_bench_model2` through `build_bench_model7` the coefficient of
`y_k` is `k + 1`. -/
theorem objective_coefficients (n : ℕ) :
    coeffVec n (build_bench_model1 n).obj = (List.range n).map (fun k : ℕ => (k : ℤ)) ∧
    (0 < n → coeffOf (build_bench_model1 n).obj 0 = 0) ∧
    coeffVec n (build_bench_model2 n).obj = (List.range n).map (fun k : ℕ => (k : ℤ) + 1) ∧
    coeffVec n (build_bench_model21 n).obj = (List.range n).map (fun k : ℕ => (k : ℤ) + 1) ∧
    coeffVec n (build_bench_model3 n).obj = (List.range n).map (fun k : ℕ => (k : ℤ) + 1) ∧
    coeffVec n (build_bench_model4 n).obj = (List.range n).map (fun k : ℕ => (k : ℤ) + 1) ∧
    coeffVec n (build_bench_model5 n).obj = (List.range n).map (fun k : ℕ => (k : ℤ) + 1) ∧
    coeffVec n (build_bench_model6 n).obj = (List.range n).map (fun k : ℕ => (k : ℤ) + 1) ∧
    coeffVec n (build_bench_model7 n).obj = (List.range n).map (fun k : ℕ => (k : ℤ) + 1) := by
  refine ⟨coeffVec_build1_obj n, ?_, coeffVec_benchObj2 n, coeffVec_benchObj2 n,
    coeffVec_benchObj2 n, coeffVec_benchObj2 n, coeffVec_benchObj2 n,
    coeffVec_benchObj2 n, coeffVec_benchObj2 n⟩
  intro hn
  rw [show (build_bench_model1 n).obj =
        (List.range n).map (fun k => ({ var := k, coeff := (k : ℤ) } : LinTerm)) from rfl,
    coeffOf_map_range]
  exact sum_ite_range_of_lt (fun k => (k : ℤ)) n 0 hn

/-- Witness for C10 at size 3: `y_0` has objective coefficient 0 in
model 1. -/
theorem objective_coefficients_witness :
    (0 < 3) ∧ coeffOf (build_bench_model1 3).obj 0 = 0 :=
  ⟨by norm_num, (objective_coefficients 3).2.1 (by norm_num)⟩

end DocplexBench
